import Mathlib

/-!
Verification of the DataRecoveryTool drive/partition layer.

This development shallowly embeds the code of `src/DriveHandler.cpp`
(together with the interface `src/SectorReader.h`) in Lean 4 and proves
properties of the embedded definitions.

Conventions:
* `wchar_t`/`char` values are modelled as `Nat` character codes; the
  program never sets a locale, so `std::towupper`, `std::isdigit` and
  `std::iswalpha` behave as in the "C" locale (ASCII only).
* device bytes are modelled as `Fin 256`;
* machine-integer arithmetic that can overflow is taken modulo `2 ^ 32`
  (resp. `2 ^ 64`) exactly where the C++ expression has that type;
* functions that throw `std::runtime_error` return `Except DriveError _`;
  the `DriveError` constructors stand for the exact message strings of
  the C++ code, which are quoted in their doc comments.

Struct layouts (`MBRHeader`, `GPTHeader`, `BootSector`, the partition
entry types and the `DriveType`/`PartitionScheme`/`FilesystemType`
enums) are declared in `DriveHandler.h`, which is not part of the given
sources; where a layout or enumerator value is needed it is modelled
from the spec's "On-disk formats consumed (bit-exact)" section and
marked `Modelled from the spec:` in its doc comment.
-/

/-- A device byte. -/
abbrev Byte := Fin 256

/-- Enum `DriveType` (declared in `DriveHandler.h`): result of
`DriveHandler::determineDriveType`. -/
inductive DriveType where
  | PHYSICAL_DRIVE
  | LOGICAL_DRIVE
  | UNKNOWN_DRIVE
deriving DecidableEq

/-- Enum `PartitionScheme` (declared in `DriveHandler.h`): result of
`DriveHandler::getPartitionScheme`. -/
inductive PartitionScheme where
  | MBR_SCHEME
  | GPT_SCHEME
  | UNKNOWN_SCHEME
deriving DecidableEq

/-- Enum `FilesystemType` (declared in `DriveHandler.h`). -/
inductive FilesystemType where
  | FAT32_TYPE
  | NTFS_TYPE
  | EXFAT_TYPE
  | EXT4_TYPE
  | UNKNOWN_TYPE
deriving DecidableEq

/-- Stand-ins for the `std::runtime_error` messages thrown by
`DriveHandler`; each constructor corresponds to one exact message. -/
inductive DriveError where
  /-- "Could not determine the type of the drive (Physical, Logical).
  Please make sure to enter the correct drive." -/
  | couldNotDetermineDriveType
  /-- "Failed to initialize Sector Reader." -/
  | failedToInitSectorReader
  /-- "Cannot read sector." -/
  | cannotReadSector
  /-- "Failed to read BytesPerSector value using DeviceIoControl" -/
  | failedBytesPerSector
  /-- "Partition is neither MBR nor GPT. Please make sure to enter the
  correct drive." -/
  | neitherMBRnorGPT
deriving DecidableEq

/-! ### Character helpers (C locale, ASCII) -/

/-- `std::towupper` in the "C" locale: maps `a`..`z` (97..122) to
`A`..`Z` and fixes everything else. -/
def towupper (c : Nat) : Nat :=
  if 97 ≤ c ∧ c ≤ 122 then c - 32 else c

/-- `std::isdigit` in the "C" locale: `0`..`9` are 48..57. -/
def isdigitChar (c : Nat) : Bool :=
  decide (48 ≤ c ∧ c ≤ 57)

/-- `std::iswalpha` in the "C" locale: ASCII letters only. -/
def iswalphaChar (c : Nat) : Bool :=
  decide ((65 ≤ c ∧ c ≤ 90) ∨ (97 ≤ c ∧ c ≤ 122))

/-- The four characters of the device-path prefix `\\.\` . -/
def pathPfxChars : List Nat := [92, 92, 46, 92]

/-- The thirteen characters of `PhysicalDrive`. -/
def physicalDriveChars : List Nat :=
  [80, 104, 121, 115, 105, 99, 97, 108, 68, 114, 105, 118, 101]

/-- The thirteen characters of `PHYSICALDRIVE`. -/
def upperPhysicalDriveChars : List Nat :=
  [80, 72, 89, 83, 73, 67, 65, 76, 68, 82, 73, 86, 69]

/-- The colon character `:`. -/
def colonChar : Nat := 58

/-- Whether `pat` occurs at the start of `s`. -/
def startsWith : List Nat → List Nat → Bool
  | [], _ => true
  | _ :: _, [] => false
  | a :: ps, b :: ss => a == b && startsWith ps ss

/-- `std::wstring::find(pat) != npos`: `pat` occurs as a contiguous
substring of `s`. -/
def containsSub (pat : List Nat) : List Nat → Bool
  | [] => startsWith pat []
  | b :: rest => startsWith pat (b :: rest) || containsSub pat rest

/-! ### `DriveHandler::determineDriveType` -/

/-- `DriveHandler::determineDriveType` (DriveHandler.cpp:59-85).
Returns the computed `DriveType` together with the canonical device
path written into `config.drivePath` (`none` when the function falls
through to `UNKNOWN_DRIVE` and leaves `config.drivePath` untouched).
The input wide string is a list of character codes. -/
def determineDriveType (drivePath : List Nat) : DriveType × Option (List Nat) :=
  if drivePath.length == 1 && isdigitChar (drivePath.headD 32) then
    (DriveType.PHYSICAL_DRIVE, some (pathPfxChars ++ physicalDriveChars ++ drivePath))
  else if containsSub upperPhysicalDriveChars (drivePath.map towupper)
      && isdigitChar ((drivePath.map towupper).getLastD 32) then
    (DriveType.PHYSICAL_DRIVE,
      some (pathPfxChars ++ physicalDriveChars ++ [(drivePath.map towupper).getLastD 32]))
  else if ((drivePath.map towupper).length == 1
        && iswalphaChar ((drivePath.map towupper).headD 32))
      || ((drivePath.map towupper).length == 2
        && iswalphaChar ((drivePath.map towupper).headD 32)
        && ((drivePath.map towupper).getLastD 32 == colonChar)) then
    (DriveType.LOGICAL_DRIVE,
      some (pathPfxChars ++ drivePath.map towupper
        ++ (if (drivePath.map towupper).length == 1 then [colonChar] else [])))
  else
    (DriveType.UNKNOWN_DRIVE, none)

/-- `DriveHandler::initializeSectorReader` (DriveHandler.cpp:14-31):
for a logical or physical drive a reader is created and installed;
for `UNKNOWN_DRIVE` a `std::runtime_error` is thrown before any device
I/O is performed. -/
def initSectorReader (dt : DriveType) : Except DriveError Unit :=
  match dt with
  | DriveType.LOGICAL_DRIVE => Except.ok ()
  | DriveType.PHYSICAL_DRIVE => Except.ok ()
  | DriveType.UNKNOWN_DRIVE => Except.error DriveError.couldNotDetermineDriveType

/-! ### Spec-side input shapes for claim C1

These predicates formalise the shapes named by the spec sentence
"bare number → physical drive index; single letter or letter:
→ logical volume" and by the amended claim. -/

/-- Spec shape: a bare (decimal) number, i.e. a nonempty all-digit string. -/
def specBareNumber (cs : List Nat) : Bool :=
  !cs.isEmpty && cs.all isdigitChar

/-- Amended shape 1: a single decimal digit. -/
def specSingleDigit : List Nat → Bool
  | [c] => isdigitChar c
  | _ => false

/-- Spec shape: a single letter, or a letter followed by a colon. -/
def specLetterInput : List Nat → Bool
  | [c] => iswalphaChar c
  | [c, d] => iswalphaChar c && (d == colonChar)
  | _ => false

/-- Amended shape 2: the uppercased input contains `PHYSICALDRIVE` and
the input's final character is a decimal digit. -/
def specPhysicalName (cs : List Nat) : Bool :=
  containsSub upperPhysicalDriveChars (cs.map towupper) && isdigitChar (cs.getLastD 32)

/-- The classification described by the amended claim C1: three input
shapes, everything else `UNKNOWN_DRIVE`. -/
def specClassify (cs : List Nat) : DriveType :=
  if specSingleDigit cs then DriveType.PHYSICAL_DRIVE
  else if specPhysicalName cs then DriveType.PHYSICAL_DRIVE
  else if specLetterInput cs then DriveType.LOGICAL_DRIVE
  else DriveType.UNKNOWN_DRIVE

/-- The canonical path described by the amended claim C1:
`\\.\PhysicalDrive<digit>` for the two physical shapes and
`\\.\<LETTER>:` for the logical shape. -/
def specNormalizePath (cs : List Nat) : Option (List Nat) :=
  if specSingleDigit cs then
    some (pathPfxChars ++ physicalDriveChars ++ cs)
  else if specPhysicalName cs then
    some (pathPfxChars ++ physicalDriveChars ++ [cs.getLastD 32])
  else if specLetterInput cs then
    some (pathPfxChars ++ [towupper (cs.headD 32), colonChar])
  else
    none

/-! ### On-disk structures -/

/-- Struct `MBRPartitionEntry` (declared in `DriveHandler.h`; field set
taken from its uses in DriveHandler.cpp). Multi-byte fields hold the
decoded little-endian values. -/
structure MBRPartitionEntry where
  BootIndicator : Nat
  StartHead : Nat
  StartSector : Nat
  StartCylinder : Nat
  type : Nat
  EndHead : Nat
  EndSector : Nat
  EndCylinder : Nat
  StartLBA : Nat
  TotalSectors : Nat
deriving DecidableEq

/-- Struct `MBRHeader` (declared in `DriveHandler.h`): boot code,
four partition-table slots and the 2-byte trailer signature. -/
structure MBRHeader where
  bootCode : Fin 446 → Byte
  PartitionTable : Fin 4 → MBRPartitionEntry
  signature : Nat

/-- Struct `GPTHeader` (declared in `DriveHandler.h`; field set from
its uses in DriveHandler.cpp and the spec's GPT header format). -/
structure GPTHeader where
  Signature : Fin 8 → Byte
  Revision : Nat
  HeaderSize : Nat
  HeaderCRC32 : Nat
  CurrentLBA : Nat
  BackupLBA : Nat
  FirstUsableLBA : Nat
  LastUsableLBA : Nat
  DiskGUID : Fin 16 → Byte
  PartitionEntryLBA : Nat
  NumberOfEntries : Nat
  SizeOfEntry : Nat
  PartitionEntryArrayCRC32 : Nat

/-- Little-endian value of a list of bytes (least significant first). -/
def leBytes (bs : List Byte) : Nat :=
  bs.foldr (fun b acc => b.val + 256 * acc) 0

/-- Modelled from the spec: the bit-exact MBR partition entry layout
("4 x 16-byte partition entries"; 1-byte CHS/type fields, 4-byte
little-endian `StartLBA` and `TotalSectors`). The packed struct
declaration lives in `DriveHandler.h`, which is not in `src/`. -/
def decodeMBRPartitionEntry (at16 : Nat → Byte) : MBRPartitionEntry where
  BootIndicator := (at16 0).val
  StartHead := (at16 1).val
  StartSector := (at16 2).val
  StartCylinder := (at16 3).val
  type := (at16 4).val
  EndHead := (at16 5).val
  EndSector := (at16 6).val
  EndCylinder := (at16 7).val
  StartLBA := leBytes [at16 8, at16 9, at16 10, at16 11]
  TotalSectors := leBytes [at16 12, at16 13, at16 14, at16 15]

/-- Modelled from the spec: the bit-exact MBR sector layout ("512-byte
sector; ... 4 x 16-byte partition entries at the fixed legacy offset;
2-byte signature 0xAA55 at the final 2 bytes", little-endian on x86).
`s0` is the content of sector 0, read by `DriveHandler::readMBR`
(DriveHandler.cpp:114-116). -/
def decodeMBRHeader (s0 : Nat → Byte) : MBRHeader where
  bootCode := fun i => s0 i.val
  PartitionTable := fun i => decodeMBRPartitionEntry (fun t => s0 (446 + 16 * i.val + t))
  signature := leBytes [s0 510, s0 511]

/-- Modelled from the spec: the bit-exact GPT header layout ("512-byte
sector at LBA 1; 8-byte ASCII signature; ... partition-entry starting
LBA, entry count, entry size"), standard field offsets, little-endian.
`s1` is the content of sector 1, read by `DriveHandler::readGPT`
(DriveHandler.cpp:133-135). -/
def decodeGPTHeader (s1 : Nat → Byte) : GPTHeader where
  Signature := fun i => s1 i.val
  Revision := leBytes [s1 8, s1 9, s1 10, s1 11]
  HeaderSize := leBytes [s1 12, s1 13, s1 14, s1 15]
  HeaderCRC32 := leBytes [s1 16, s1 17, s1 18, s1 19]
  CurrentLBA := leBytes ((List.range 8).map (fun t => s1 (24 + t)))
  BackupLBA := leBytes ((List.range 8).map (fun t => s1 (32 + t)))
  FirstUsableLBA := leBytes ((List.range 8).map (fun t => s1 (40 + t)))
  LastUsableLBA := leBytes ((List.range 8).map (fun t => s1 (48 + t)))
  DiskGUID := fun i => s1 (56 + i.val)
  PartitionEntryLBA := leBytes ((List.range 8).map (fun t => s1 (72 + t)))
  NumberOfEntries := leBytes [s1 80, s1 81, s1 82, s1 83]
  SizeOfEntry := leBytes [s1 84, s1 85, s1 86, s1 87]
  PartitionEntryArrayCRC32 := leBytes [s1 88, s1 89, s1 90, s1 91]

/-! ### Scheme detection -/

/-- `DriveHandler::isMBR` (DriveHandler.cpp:118-120): the decoded
2-byte signature equals `0xAA55`. -/
def isMBR (m : MBRHeader) : Bool :=
  m.signature == 0xAA55

/-- The eight ASCII codes of `EFI PART`. -/
def gptSignatureBytes : List Nat := [69, 70, 73, 32, 80, 65, 82, 84]

/-- `DriveHandler::isGPT` (DriveHandler.cpp:137-140): `memcmp` of the
8 signature bytes against `"EFI PART"`, unrolled byte by byte. -/
def isGPT (g : GPTHeader) : Bool :=
  (g.Signature 0).val == 69 && (g.Signature 1).val == 70
    && (g.Signature 2).val == 73 && (g.Signature 3).val == 32
    && (g.Signature 4).val == 80 && (g.Signature 5).val == 65
    && (g.Signature 6).val == 82 && (g.Signature 7).val == 84

/-- `DriveHandler::getPartitionScheme` (DriveHandler.cpp:87-99): both
sector 0 and sector 1 are read (`readMBR`; `readGPT`), then GPT is
preferred over MBR. `m`/`g` are the structures those reads produce. -/
def getPartitionScheme (m : MBRHeader) (g : GPTHeader) : PartitionScheme :=
  if isGPT g then PartitionScheme.GPT_SCHEME
  else if isMBR m then PartitionScheme.MBR_SCHEME
  else PartitionScheme.UNKNOWN_SCHEME

/-- Spec-side MBR validity for claim C2: "sector 0 ... the 2-byte MBR
trailer signature", i.e. bytes 510/511 are `0x55 0xAA`. -/
def specMBRSignatureValid (s0 : Nat → Byte) : Bool :=
  (s0 510).val == 0x55 && (s0 511).val == 0xAA

/-- Spec-side GPT validity for claim C2: "sector 1 ... the 8-byte ASCII
`EFI PART` signature". -/
def specGPTSignatureValid (s1 : Nat → Byte) : Bool :=
  (s1 0).val == 69 && (s1 1).val == 70 && (s1 2).val == 73 && (s1 3).val == 32
    && (s1 4).val == 80 && (s1 5).val == 65 && (s1 6).val == 82 && (s1 7).val == 84

/-! ### MBR partition extraction -/

/-- The four partition-table slots of an MBR, in table order. -/
def mbrTableList (m : MBRHeader) : List MBRPartitionEntry :=
  [m.PartitionTable 0, m.PartitionTable 1, m.PartitionTable 2, m.PartitionTable 3]

/-- `DriveHandler::getMBRPartitions` (DriveHandler.cpp:122-128): walk
the four slots in order and `push_back` every slot whose
`TotalSectors` field is nonzero. The returned list models the
`partitionsMBR` vector after the call. -/
def getMBRPartitions (m : MBRHeader) : List MBRPartitionEntry :=
  (mbrTableList m).foldl
    (fun acc p => if p.TotalSectors ≠ 0 then acc.concat p else acc) []

/-! ### FAT32 boot sector -/

/-- Struct `BootSector` (declared in `DriveHandler.h`; field set from
its uses in DriveHandler.cpp, including `printBootSector`). Fields hold
the decoded integer values; arrays are byte functions. -/
structure BootSector where
  jmpBoot : Fin 3 → Byte
  OEMName : Fin 8 → Byte
  BytesPerSector : Nat
  SectorsPerCluster : Nat
  ReservedSectorCount : Nat
  NumFATs : Nat
  RootEntryCount : Nat
  TotalSectors16 : Nat
  Media : Nat
  FATSize16 : Nat
  SectorsPerTrack : Nat
  NumberOfHeads : Nat
  HiddenSectors : Nat
  TotalSectors32 : Nat
  FATSize32 : Nat
  ExtFlags : Nat
  FSVersion : Nat
  RootCluster : Nat
  FSInfo : Nat
  BkBootSec : Nat
  Reserved : Fin 12 → Byte
  DriveNumber : Nat
  Reserved1 : Nat
  BootSignature : Nat
  BootSectorSignature : Nat
  VolumeID : Nat
  VolumeLabel : Fin 11 → Byte
  FileSystemType : Fin 8 → Byte

/-- The all-zero boot sector (used for concrete witnesses). -/
def zeroBootSector : BootSector where
  jmpBoot := fun _ => 0
  OEMName := fun _ => 0
  BytesPerSector := 0
  SectorsPerCluster := 0
  ReservedSectorCount := 0
  NumFATs := 0
  RootEntryCount := 0
  TotalSectors16 := 0
  Media := 0
  FATSize16 := 0
  SectorsPerTrack := 0
  NumberOfHeads := 0
  HiddenSectors := 0
  TotalSectors32 := 0
  FATSize32 := 0
  ExtFlags := 0
  FSVersion := 0
  RootCluster := 0
  FSInfo := 0
  BkBootSec := 0
  Reserved := fun _ => 0
  DriveNumber := 0
  Reserved1 := 0
  BootSignature := 0
  BootSectorSignature := 0
  VolumeID := 0
  VolumeLabel := fun _ => 0
  FileSystemType := fun _ => 0

/-- The `DriveHandler` member state written by `readBootSector`:
`bootSector`, `fatStartSector`, `dataStartSector`, `rootDirCluster`. -/
structure GeoState where
  bootSector : BootSector
  fatStartSector : Nat
  dataStartSector : Nat
  rootDirCluster : Nat

/-- An initial member state (members are not otherwise initialised in
the C++ class; theorems show the parse never depends on it). -/
def initGeoState : GeoState where
  bootSector := zeroBootSector
  fatStartSector := 0
  dataStartSector := 0
  rootDirCluster := 0

/-- A device whose sector reads succeed. `sector0`/`sector1` give the
raw bytes of sectors 0 and 1; `bootSectorAt s` is the `BootSector`
structure produced by reading sector `s`; `byteAt` addresses the raw
device bytes (per the SectorSource contract, sector `s` starts at byte
`s * bytesPerSector`); `bytesPerSector` is the value reported by
`SectorReader::getBytesPerSector`. -/
structure Disk where
  sector0 : Nat → Byte
  sector1 : Nat → Byte
  bootSectorAt : Nat → BootSector
  byteAt : Nat → Byte
  bytesPerSector : Nat

/-- The all-zero disk (used for concrete witnesses). -/
def zeroDisk : Disk where
  sector0 := fun _ => 0
  sector1 := fun _ => 0
  bootSectorAt := fun _ => zeroBootSector
  byteAt := fun _ => 0
  bytesPerSector := 512

/-- `DriveHandler::readBootSector` (DriveHandler.cpp:101-109): read the
boot sector at `sector` and recompute the derived geometry members.
`fatStartSector` and `dataStartSector` are `uint32_t`, so the derived
sum is reduced modulo `2 ^ 32`. -/
def readBootSector (d : Disk) (sector : Nat) (s : GeoState) : GeoState :=
  { s with
    bootSector := d.bootSectorAt sector
    fatStartSector := (d.bootSectorAt sector).ReservedSectorCount
    dataStartSector :=
      ((d.bootSectorAt sector).ReservedSectorCount
        + (d.bootSectorAt sector).NumFATs * (d.bootSectorAt sector).FATSize32) % 2 ^ 32
    rootDirCluster := (d.bootSectorAt sector).RootCluster }

/-! ### Filesystem identification from the boot-sector label -/

/-- The ASCII codes of `FAT32`. -/
def fat32Label : List Nat := [70, 65, 84, 51, 50]

/-- The ASCII codes of `NTFS`. -/
def ntfsLabel : List Nat := [78, 84, 70, 83]

/-- The ASCII codes of `exFAT`. -/
def exfatLabel : List Nat := [101, 120, 70, 65, 84]

/-- The ASCII codes of `EXT4`. -/
def ext4Label : List Nat := [69, 88, 84, 52]

/-- The eight bytes of the `FileSystemType` boot-sector field as a list
of codes (the `std::string fsType(..., 8)` of DriveHandler.cpp:177). -/
def fileSystemTypeBytes (bs : BootSector) : List Nat :=
  List.ofFn (fun i : Fin 8 => (bs.FileSystemType i).val)

/-- The label-matching step of `DriveHandler::getFSTypeFromBootSector`
(DriveHandler.cpp:177-192). `find_first_of(" \0")` receives a
NUL-terminated C string, so the searched character set is just the
space character: the label is cut at the first space only, and a NUL
byte stays inside the compared string. -/
def fsTypeOfLabel (label : List Nat) : FilesystemType :=
  let fsType := label.takeWhile (fun b => b != 32)
  if fsType = fat32Label then FilesystemType.FAT32_TYPE
  else if fsType = ntfsLabel then FilesystemType.NTFS_TYPE
  else if fsType = exfatLabel then FilesystemType.EXFAT_TYPE
  else if fsType = ext4Label then FilesystemType.EXT4_TYPE
  else FilesystemType.UNKNOWN_TYPE

/-- `DriveHandler::getFSTypeFromBootSector` (DriveHandler.cpp:175-193):
parse the boot sector (updating the geometry members), then match the
trimmed label. -/
def getFSTypeFromBootSector (d : Disk) (sector : Nat) (s : GeoState) :
    FilesystemType × GeoState :=
  (fsTypeOfLabel (fileSystemTypeBytes ((readBootSector d sector s).bootSector)),
    readBootSector d sector s)

/-- Spec-side label matching for claim C3: "reads the 8-byte ASCII
label field, trims at the first space or NUL, and matches against
{FAT32, NTFS, exFAT, EXT4}". -/
def specFSTypeOfLabel (label : List Nat) : FilesystemType :=
  let trimmed := label.takeWhile (fun b => b != 32 && b != 0)
  if trimmed = fat32Label then FilesystemType.FAT32_TYPE
  else if trimmed = ntfsLabel then FilesystemType.NTFS_TYPE
  else if trimmed = exfatLabel then FilesystemType.EXFAT_TYPE
  else if trimmed = ext4Label then FilesystemType.EXT4_TYPE
  else FilesystemType.UNKNOWN_TYPE

/-- A boot sector whose `FileSystemType` field is `FAT32` followed by
three NUL bytes (the failing input of claim C3). -/
def fat32NulBootSector : BootSector :=
  { zeroBootSector with
    FileSystemType := fun i => ([70, 65, 84, 51, 50, 0, 0, 0] : List Byte).getD i.val 0 }

/-- A disk whose every boot sector carries the `FAT32\0\0\0` label. -/
def fat32NulDisk : Disk :=
  { zeroDisk with bootSectorAt := fun _ => fat32NulBootSector }

/-! ### The sector-read wrapper -/

/-- The `SectorReader` interface (SectorReader.h). `readSector s n`
returns the `bool` result of the virtual call together with the buffer
contents it leaves behind (which may be partial or stale on failure). -/
structure SectorReader where
  readSector : Nat → Nat → Bool × (Nat → Byte)

/-- `DriveHandler::readSector` (DriveHandler.cpp:33-37): forward to the
`SectorReader`; a `false` result raises `std::runtime_error("Cannot
read sector.")`, a `true` result returns the filled buffer. -/
def readSector (r : SectorReader) (sector size : Nat) : Except DriveError (Nat → Byte) :=
  if (r.readSector sector size).fst then Except.ok (r.readSector sector size).snd
  else Except.error DriveError.cannotReadSector

/-- A reader whose reads always succeed (witness input). -/
def okReader : SectorReader where
  readSector := fun _ _ => (true, fun _ => 7)

/-- A reader whose reads always fail (witness input). -/
def badReader : SectorReader where
  readSector := fun _ _ => (false, fun _ => 7)

/-! ### GPT partition-entry extraction

`DriveHandler::getGPTPartitions` (DriveHandler.cpp:142-170) runs
`for (uint32_t i = 0; i < gpt.NumberOfEntries; i += entriesPerSector)`,
reading one whole sector per outer iteration. The 32-bit index
arithmetic (`i += entriesPerSector`, `i * sizeOfEntry`) is modelled
modulo `2 ^ 32`, the 64-bit LBA modulo `2 ^ 64`. Because the C++ loop
need not terminate (when `entriesPerSector` is `0` the index never
advances), the model takes a fuel argument bounding the number of
outer iterations; `none` means the fuel ran out before the loop ended. -/

/-- The `sizeOfEntry`-byte record `memcpy`d out of the sector buffer at
entry slot `j` (DriveHandler.cpp:154-155). -/
def entryFromBuffer (buf : Nat → Byte) (j soe : Nat) : List Byte :=
  (List.range soe).map (fun t => buf (j * soe + t))

/-- `std::all_of` over the 16 `PartitionTypeGUID` bytes of an entry
record (DriveHandler.cpp:158-162). -/
def isEmptyGUID (e : List Byte) : Bool :=
  (e.take 16).all (fun b => b == 0)

/-- The inner loop of `getGPTPartitions` (DriveHandler.cpp:153-167):
`for (j = 0; j < entriesPerSector && (i + j) < gpt.NumberOfEntries; j++)`,
pushing every entry whose type GUID is not all-zero. `k` is the
remaining iteration budget `entriesPerSector - j`. -/
def collectBatch (buf : Nat → Byte) (soe i N : Nat) : Nat → Nat → List (List Byte)
  | 0, _ => []
  | k + 1, j =>
    if (i + j) % 2 ^ 32 < N then
      (if isEmptyGUID (entryFromBuffer buf j soe) then []
        else [entryFromBuffer buf j soe])
        ++ collectBatch buf soe i N k (j + 1)
    else []

/-- The outer loop of `getGPTPartitions`: per iteration it reads the
whole sector `gpt.PartitionEntryLBA + (i * sizeOfEntry) / bytesPerSector`
and collects its entries. Returns the pushed entries together with the
number of `readSector` calls, or `none` when the fuel is exhausted
before `i < gpt.NumberOfEntries` turns false. -/
def gptLoop (g : GPTHeader) (bps : Nat) (byteAt : Nat → Byte) :
    Nat → Nat → Option (List (List Byte) × Nat)
  | 0, _ => none
  | fuel + 1, i =>
    if i < g.NumberOfEntries then
      (gptLoop g bps byteAt fuel ((i + bps / g.SizeOfEntry) % 2 ^ 32)).map
        (fun rc =>
          (collectBatch
              (fun t => byteAt
                (((g.PartitionEntryLBA + ((i * g.SizeOfEntry) % 2 ^ 32) / bps) % 2 ^ 64)
                    * bps + t))
              g.SizeOfEntry i g.NumberOfEntries (bps / g.SizeOfEntry) 0
            ++ rc.fst,
            rc.snd + 1))
    else
      some ([], 0)

/-- `DriveHandler::getGPTPartitions` with a fuel of
`NumberOfEntries + 1`, which suffices whenever `entriesPerSector` is
positive and the 32-bit index cannot wrap. -/
def getGPTPartitions (g : GPTHeader) (bps : Nat) (byteAt : Nat → Byte) :
    Option (List (List Byte) × Nat) :=
  gptLoop g bps byteAt (g.NumberOfEntries + 1) 0

/-- Termination of the C++ loop: some finite number of outer
iterations reaches `i ≥ gpt.NumberOfEntries`. -/
def gptLoopTerminates (g : GPTHeader) (bps : Nat) (byteAt : Nat → Byte) : Prop :=
  ∃ fuel r, gptLoop g bps byteAt fuel 0 = some r

/-- The entry record at absolute slot `m` of the on-disk entry array
(the array begins at byte `PartitionEntryLBA * bps`). -/
def entryBytesAbs (peLBA bps soe : Nat) (byteAt : Nat → Byte) (m : Nat) : List Byte :=
  (List.range soe).map (fun t => byteAt (peLBA * bps + m * soe + t))

/-- Spec-side result for claim C4: the non-empty-GUID entries among the
`NumberOfEntries` slots, in slot order. -/
def gptEntriesSpec (g : GPTHeader) (bps : Nat) (byteAt : Nat → Byte) : List (List Byte) :=
  ((List.range g.NumberOfEntries).map
      (entryBytesAbs g.PartitionEntryLBA bps g.SizeOfEntry byteAt)).filter
    (fun e => !isEmptyGUID e)

/-! ### Filesystem type of a partition, and the recovery pass -/

/-- Struct `GPTPartitionEntry` (declared in `DriveHandler.h`; layout
per the spec: 16-byte type GUID, 16-byte unique GUID, 8-byte start/end
LBA, 8-byte attributes, 36 UTF-16 name code units). -/
structure GPTPartitionEntry where
  PartitionTypeGUID : Fin 16 → Byte
  UniquePartitionGUID : Fin 16 → Byte
  StartingLBA : Nat
  EndingLBA : Nat
  Attributes : Nat
  PartitionName : Fin 36 → Nat

/-- Modelled from the spec: decode of a raw entry record into
`GPTPartitionEntry` (the `memcpy` into the packed struct, standard
offsets; bytes beyond the record are taken as zero). -/
def decodeGPTPartitionEntry (bs : List Byte) : GPTPartitionEntry where
  PartitionTypeGUID := fun i => bs.getD i.val 0
  UniquePartitionGUID := fun i => bs.getD (16 + i.val) 0
  StartingLBA := leBytes ((bs.drop 32).take 8)
  EndingLBA := leBytes ((bs.drop 40).take 8)
  Attributes := leBytes ((bs.drop 48).take 8)
  PartitionName := fun i => (bs.getD (56 + 2 * i.val) 0).val
    + 256 * (bs.getD (56 + 2 * i.val + 1) 0).val

/-- Modelled from the spec: `GUID_FAT32_TYPE` (defined with the enum
declarations in the missing header) — the Microsoft basic-data
partition type GUID `EBD0A0A2-B9E5-4433-87C0-68B6B72699C7` in its
on-disk mixed-endian byte order. -/
def GUID_FAT32_TYPE : List Byte :=
  [0xA2, 0xA0, 0xD0, 0xEB, 0xE5, 0xB9, 0x33, 0x44,
    0x87, 0xC0, 0x68, 0xB6, 0xB7, 0x26, 0x99, 0xC7]

/-- Modelled from the spec: the numeric value of the `FAT32_TYPE`
enumerator (the missing header assigns the MBR FAT32-LBA partition
type code `0x0C`). -/
def fat32MBRTypeCode : Nat := 0x0C

/-- `DriveHandler::getFSTypeFromMBRPartition` (DriveHandler.cpp:195-197):
`static_cast<FilesystemType>(type)`. Only the FAT32 code is matched to
a recovery path; every other code compares unequal to `FAT32_TYPE`, so
they are collapsed to `UNKNOWN_TYPE` here. -/
def getFSTypeFromMBRPartition (t : Nat) : FilesystemType :=
  if t = fat32MBRTypeCode then FilesystemType.FAT32_TYPE
  else FilesystemType.UNKNOWN_TYPE

/-- `DriveHandler::getFSTypeFromGPTPartition` (DriveHandler.cpp:199-204):
`memcmp` of the 16 type-GUID bytes against `GUID_FAT32_TYPE`. -/
def getFSTypeFromGPTPartition (guid : Fin 16 → Byte) : FilesystemType :=
  if List.ofFn guid = GUID_FAT32_TYPE then FilesystemType.FAT32_TYPE
  else FilesystemType.UNKNOWN_TYPE

/-- Observable actions of a recovery pass, used to state which
partitions get a recovery invocation and in which order. -/
inductive REvent where
  | extractedMBRPartitions
  | extractedGPTPartitions
  | closedDrive
  | recoveredMBRPartition (p : MBRPartitionEntry)
  | recoveredGPTPartition (p : GPTPartitionEntry)
  | recoveredLogical

/-- The MBR arm of `DriveHandler::recoverFromPhysicalDriveFAT32`
(DriveHandler.cpp:220-230): iterate `partitionsMBR` in order, invoking
`recoverFromPhysicalDriveFAT32MBR` exactly on the FAT32-typed ones. -/
def mbrRecoveryLoop : List MBRPartitionEntry → List REvent
  | [] => []
  | p :: rest =>
    (if getFSTypeFromMBRPartition p.type = FilesystemType.FAT32_TYPE then
        [REvent.recoveredMBRPartition p]
      else [])
      ++ mbrRecoveryLoop rest

/-- The GPT arm of `DriveHandler::recoverFromPhysicalDriveFAT32`
(DriveHandler.cpp:231-239). -/
def gptRecoveryLoop : List GPTPartitionEntry → List REvent
  | [] => []
  | p :: rest =>
    (if getFSTypeFromGPTPartition p.PartitionTypeGUID = FilesystemType.FAT32_TYPE then
        [REvent.recoveredGPTPartition p]
      else [])
      ++ gptRecoveryLoop rest

/-- `DriveHandler::recoverFromPhysicalDriveFAT32`
(DriveHandler.cpp:219-241): the per-partition pass; for a scheme that
is neither MBR nor GPT it throws `std::runtime_error`. -/
def recoverFromPhysicalDriveFAT32 (scheme : PartitionScheme)
    (partitionsMBR : List MBRPartitionEntry) (partitionsGPT : List GPTPartitionEntry) :
    Except DriveError (List REvent) :=
  match scheme with
  | PartitionScheme.MBR_SCHEME => Except.ok (mbrRecoveryLoop partitionsMBR)
  | PartitionScheme.GPT_SCHEME => Except.ok (gptRecoveryLoop partitionsGPT)
  | PartitionScheme.UNKNOWN_SCHEME => Except.error DriveError.neitherMBRnorGPT

/-- `DriveHandler::recoverDrive` (DriveHandler.cpp:422-444), recording
the observable actions. `s0` is the incoming member state (the class
leaves it uninitialised). For a physical drive: detect the scheme,
extract the matching partition list, close the drive, run the
per-partition pass; for an unknown scheme return immediately. `none`
is only possible on the GPT path, when `getGPTPartitions` runs out of
fuel (the C++ loop would not have terminated by then either). -/
def recoverDrive (dt : DriveType) (d : Disk) (s0 : GeoState) :
    Option (Except DriveError (List REvent)) :=
  match dt with
  | DriveType.LOGICAL_DRIVE =>
    if (getFSTypeFromBootSector d 0 s0).fst = FilesystemType.FAT32_TYPE then
      some (Except.ok [REvent.closedDrive, REvent.recoveredLogical])
    else
      some (Except.ok [REvent.closedDrive])
  | DriveType.PHYSICAL_DRIVE =>
    match getPartitionScheme (decodeMBRHeader d.sector0) (decodeGPTHeader d.sector1) with
    | PartitionScheme.MBR_SCHEME =>
      match recoverFromPhysicalDriveFAT32 PartitionScheme.MBR_SCHEME
          (getMBRPartitions (decodeMBRHeader d.sector0)) [] with
      | Except.ok evs =>
        some (Except.ok ([REvent.extractedMBRPartitions, REvent.closedDrive] ++ evs))
      | Except.error e => some (Except.error e)
    | PartitionScheme.GPT_SCHEME =>
      match getGPTPartitions (decodeGPTHeader d.sector1) d.bytesPerSector d.byteAt with
      | none => none
      | some (es, _) =>
        match recoverFromPhysicalDriveFAT32 PartitionScheme.GPT_SCHEME []
            (es.map decodeGPTPartitionEntry) with
        | Except.ok evs =>
          some (Except.ok ([REvent.extractedGPTPartitions, REvent.closedDrive] ++ evs))
        | Except.error e => some (Except.error e)
    | PartitionScheme.UNKNOWN_SCHEME => some (Except.ok [])
  | DriveType.UNKNOWN_DRIVE => some (Except.ok [])

/-! ## Theorems -/

/-! ### Claim C5: MBR partition extraction -/

lemma foldl_concat_filter (l acc : List MBRPartitionEntry) :
    l.foldl (fun acc p => if p.TotalSectors ≠ 0 then acc.concat p else acc) acc
      = acc ++ l.filter (fun p => p.TotalSectors != 0) := by
  induction l generalizing acc with
  | nil => simp
  | cons a t ih =>
    simp only [List.foldl_cons]
    by_cases h : a.TotalSectors ≠ 0
    · rw [if_pos h, ih]
      have hb : (a.TotalSectors != 0) = true := by simpa using h
      simp [List.filter_cons, hb, List.concat_eq_append]
    · rw [if_neg h, ih]
      simp only [ne_eq, not_not] at h
      simp [List.filter_cons, h]

/-- C5: for every MBR, `getMBRPartitions` returns exactly the slots
whose total-sector field is nonzero, in table order (it is the filter
of the four fixed slots, a sublist of the table, of length equal to the
number of nonzero-sector slots). -/
theorem claim_C5 (m : MBRHeader) :
    getMBRPartitions m = (mbrTableList m).filter (fun p => p.TotalSectors != 0)
      ∧ (getMBRPartitions m).Sublist (mbrTableList m)
      ∧ (getMBRPartitions m).length
          = (mbrTableList m).countP (fun p => p.TotalSectors != 0) := by
  have h : getMBRPartitions m
      = (mbrTableList m).filter (fun p => p.TotalSectors != 0) := by
    unfold getMBRPartitions
    simpa using foldl_concat_filter (mbrTableList m) []
  refine ⟨h, ?_, ?_⟩
  · rw [h]; exact List.filter_sublist _
  · rw [h, List.countP_eq_length_filter]

/-! ### Claim C9: the sector-read wrapper -/

/-- C9: whenever the `SectorReader` returns `false`, the wrapper
`DriveHandler::readSector` throws (propagating the error) instead of
returning buffer contents; whenever it returns `true`, the wrapper
returns the buffer the reader filled. -/
theorem claim_C9 (r : SectorReader) (sector size : Nat) :
    ((r.readSector sector size).fst = false →
        readSector r sector size = Except.error DriveError.cannotReadSector)
      ∧ ((r.readSector sector size).fst = true →
        readSector r sector size = Except.ok (r.readSector sector size).snd) := by
  constructor <;> intro h <;> simp [readSector, h]

/-- Witness for C9 at two concrete readers: a failing read produces the
error, a successful read produces the filled buffer. -/
theorem claim_C9_witness :
    (badReader.readSector 3 512).fst = false
      ∧ (okReader.readSector 0 512).fst = true
      ∧ readSector badReader 3 512 = Except.error DriveError.cannotReadSector
      ∧ readSector okReader 0 512 = Except.ok (okReader.readSector 0 512).snd :=
  ⟨rfl, rfl, (claim_C9 badReader 3 512).1 rfl, (claim_C9 okReader 0 512).2 rfl⟩

/-! ### Claim C2: partition-scheme detection -/

lemma isMBR_decode (s0 : Nat → Byte) :
    isMBR (decodeMBRHeader s0) = specMBRSignatureValid s0 := by
  have h0 := (s0 510).isLt
  have h1 := (s0 511).isLt
  rw [Bool.eq_iff_iff]
  unfold isMBR decodeMBRHeader specMBRSignatureValid leBytes
  simp only [List.foldr_cons, List.foldr_nil, beq_iff_eq, Bool.and_eq_true]
  omega

lemma isGPT_decode (s1 : Nat → Byte) :
    isGPT (decodeGPTHeader s1) = specGPTSignatureValid s1 := rfl

/-- C2: on arbitrary contents of sectors 0 and 1, the scheme reported
by `getPartitionScheme` is GPT exactly when the 8-byte `EFI PART`
signature is present in sector 1 (even if the MBR signature is also
valid), MBR exactly when only the `0x55 0xAA` trailer validates, and
Unknown otherwise. -/
theorem claim_C2 (s0 s1 : Nat → Byte) :
    getPartitionScheme (decodeMBRHeader s0) (decodeGPTHeader s1)
      = (if specGPTSignatureValid s1 then PartitionScheme.GPT_SCHEME
        else if specMBRSignatureValid s0 then PartitionScheme.MBR_SCHEME
        else PartitionScheme.UNKNOWN_SCHEME) := by
  unfold getPartitionScheme
  rw [isMBR_decode, isGPT_decode]

/-! ### Claim C6: boot-sector geometry derivation -/

/-- C6: after `readBootSector`, `fatStartSector` equals the boot
sector's `ReservedSectorCount` and (absent 32-bit overflow)
`dataStartSector = fatStartSector + NumFATs * FATSize32`; moreover the
resulting geometry is recomputed from the just-read boot sector alone —
it does not depend on the incoming member state. -/
theorem claim_C6 (d : Disk) (sector : Nat) (s t : GeoState)
    (h : (d.bootSectorAt sector).ReservedSectorCount
        + (d.bootSectorAt sector).NumFATs * (d.bootSectorAt sector).FATSize32 < 2 ^ 32) :
    (readBootSector d sector s).fatStartSector
        = (d.bootSectorAt sector).ReservedSectorCount
      ∧ (readBootSector d sector s).dataStartSector
        = (readBootSector d sector s).fatStartSector
          + (d.bootSectorAt sector).NumFATs * (d.bootSectorAt sector).FATSize32
      ∧ readBootSector d sector s = readBootSector d sector t := by
  refine ⟨rfl, ?_, rfl⟩
  simp only [readBootSector]
  exact Nat.mod_eq_of_lt h

/-- Witness for C6 at the all-zero disk and two distinct incoming
member states. -/
theorem claim_C6_witness :
    ((zeroDisk.bootSectorAt 0).ReservedSectorCount
        + (zeroDisk.bootSectorAt 0).NumFATs * (zeroDisk.bootSectorAt 0).FATSize32 < 2 ^ 32)
      ∧ ((readBootSector zeroDisk 0 initGeoState).fatStartSector
          = (zeroDisk.bootSectorAt 0).ReservedSectorCount
        ∧ (readBootSector zeroDisk 0 initGeoState).dataStartSector
          = (readBootSector zeroDisk 0 initGeoState).fatStartSector
            + (zeroDisk.bootSectorAt 0).NumFATs * (zeroDisk.bootSectorAt 0).FATSize32
        ∧ readBootSector zeroDisk 0 initGeoState
          = readBootSector zeroDisk 0 { initGeoState with rootDirCluster := 7 }) :=
  ⟨by norm_num [zeroDisk, zeroBootSector],
    claim_C6 zeroDisk 0 initGeoState { initGeoState with rootDirCluster := 7 }
      (by norm_num [zeroDisk, zeroBootSector])⟩

/-! ### Claim C3: label trimming (code bug)

The claim (and the spec) say the 8-byte label is trimmed "at the first
space or NUL". The C++ passes the literal `" \0"` to
`std::string::find_first_of(const char*)`, which measures the set with
`strlen`, so the NUL is dropped and only the space trims. A label of
`FAT32` followed by NUL padding therefore fails to compare equal to
`"FAT32"` (the `std::string` retains the embedded NULs and has length
8), and the code returns `UNKNOWN_TYPE` where the spec requires
`FAT32_TYPE`. -/

/-- C3 (code bug): on the boot sector whose label bytes are
`FAT32\0\0\0`, the code's label matching yields `UNKNOWN_TYPE` while
the spec's space-or-NUL trimming yields `FAT32_TYPE`; space-padded
labels (`FAT32   `) are unaffected. -/
theorem claim_C3_code_bug :
    (getFSTypeFromBootSector fat32NulDisk 0 initGeoState).fst = FilesystemType.UNKNOWN_TYPE
      ∧ specFSTypeOfLabel [70, 65, 84, 51, 50, 0, 0, 0] = FilesystemType.FAT32_TYPE
      ∧ fsTypeOfLabel [70, 65, 84, 51, 50, 32, 32, 32] = FilesystemType.FAT32_TYPE
      ∧ specFSTypeOfLabel [70, 65, 84, 51, 50, 32, 32, 32] = FilesystemType.FAT32_TYPE := by
  refine ⟨?_, by decide, by decide, by decide⟩
  decide

/-! ### Claim C7: the per-partition recovery pass -/

lemma mbrRecoveryLoop_eq (ps : List MBRPartitionEntry) :
    mbrRecoveryLoop ps
      = (ps.filter
          (fun p => decide (getFSTypeFromMBRPartition p.type = FilesystemType.FAT32_TYPE))).map
        REvent.recoveredMBRPartition := by
  induction ps with
  | nil => rfl
  | cons p rest ih =>
    by_cases h : getFSTypeFromMBRPartition p.type = FilesystemType.FAT32_TYPE
    · simp [mbrRecoveryLoop, List.filter_cons, h, ih]
    · simp [mbrRecoveryLoop, List.filter_cons, h, ih]

lemma gptRecoveryLoop_eq (ps : List GPTPartitionEntry) :
    gptRecoveryLoop ps
      = (ps.filter
          (fun p => decide
            (getFSTypeFromGPTPartition p.PartitionTypeGUID = FilesystemType.FAT32_TYPE))).map
        REvent.recoveredGPTPartition := by
  induction ps with
  | nil => rfl
  | cons p rest ih =>
    by_cases h : getFSTypeFromGPTPartition p.PartitionTypeGUID = FilesystemType.FAT32_TYPE
    · simp [gptRecoveryLoop, List.filter_cons, h, ih]
    · simp [gptRecoveryLoop, List.filter_cons, h, ih]

/-- C7: during a physical-drive recovery pass (either scheme), recovery
is invoked exactly on the partitions whose filesystem type resolves to
FAT32, in list order; non-FAT32 partitions are skipped and the pass
never aborts (it returns `Except.ok`). -/
theorem claim_C7 (pm : List MBRPartitionEntry) (pg : List GPTPartitionEntry) :
    recoverFromPhysicalDriveFAT32 PartitionScheme.MBR_SCHEME pm pg
      = Except.ok
        ((pm.filter
            (fun p => decide (getFSTypeFromMBRPartition p.type = FilesystemType.FAT32_TYPE))).map
          REvent.recoveredMBRPartition)
      ∧ recoverFromPhysicalDriveFAT32 PartitionScheme.GPT_SCHEME pm pg
        = Except.ok
          ((pg.filter
              (fun p => decide
                (getFSTypeFromGPTPartition p.PartitionTypeGUID
                  = FilesystemType.FAT32_TYPE))).map
            REvent.recoveredGPTPartition) := by
  constructor
  · simp [recoverFromPhysicalDriveFAT32, mbrRecoveryLoop_eq]
  · simp [recoverFromPhysicalDriveFAT32, gptRecoveryLoop_eq]

/-! ### Claim C8: unknown partition scheme -/

/-- C8: for a physical drive on which neither signature validates
(`getPartitionScheme` reports `UNKNOWN_SCHEME`), `recoverDrive` returns
normally with no partition-extraction and no per-partition recovery
action (and no thrown error). -/
theorem claim_C8 (d : Disk) (s0 : GeoState)
    (h : getPartitionScheme (decodeMBRHeader d.sector0) (decodeGPTHeader d.sector1)
      = PartitionScheme.UNKNOWN_SCHEME) :
    recoverDrive DriveType.PHYSICAL_DRIVE d s0 = some (Except.ok []) := by
  unfold recoverDrive
  rw [h]

/-- Witness for C8 at the all-zero disk (no valid MBR or GPT
signature). -/
theorem claim_C8_witness :
    getPartitionScheme (decodeMBRHeader zeroDisk.sector0) (decodeGPTHeader zeroDisk.sector1)
        = PartitionScheme.UNKNOWN_SCHEME
      ∧ recoverDrive DriveType.PHYSICAL_DRIVE zeroDisk initGeoState = some (Except.ok []) :=
  ⟨by decide, claim_C8 zeroDisk initGeoState (by decide)⟩

/-! ### Claim C1: drive classification (corrected)

`determineDriveType` accepts a third input shape the claim omits: any
string whose uppercased form contains `PHYSICALDRIVE` and whose last
character is a digit (DriveHandler.cpp:72-76). Moreover the "bare
number" branch only accepts a single digit (`size() == 1`,
DriveHandler.cpp:66). The theorems below prove the corrected,
three-shape classification and exhibit both deviations concretely. -/

lemma isdigit_towupper (c : Nat) : isdigitChar (towupper c) = isdigitChar c := by
  unfold towupper isdigitChar
  split
  · rw [decide_eq_decide]; omega
  · rfl

lemma iswalpha_towupper (c : Nat) : iswalphaChar (towupper c) = iswalphaChar c := by
  unfold towupper iswalphaChar
  split
  · rw [decide_eq_decide]; omega
  · rfl

lemma towupper_eq_of_digit {c : Nat} (h : isdigitChar c = true) : towupper c = c := by
  unfold isdigitChar at h
  rw [decide_eq_true_eq] at h
  unfold towupper
  rw [if_neg]
  omega

lemma towupper_beq_colon (c : Nat) : (towupper c == colonChar) = (c == colonChar) := by
  unfold towupper colonChar
  rw [Bool.eq_iff_iff]
  simp only [beq_iff_eq]
  split <;> omega

lemma map_towupper_headD (cs : List Nat) :
    (cs.map towupper).headD 32 = towupper (cs.headD 32) := by
  cases cs <;> rfl

lemma map_towupper_getLastD_aux (cs : List Nat) :
    ∀ d : Nat, (cs.map towupper).getLastD (towupper d) = towupper (cs.getLastD d) := by
  induction cs with
  | nil => intro d; rfl
  | cons a t ih =>
    intro d
    rw [List.map_cons, List.getLastD_cons, List.getLastD_cons, ih a]

lemma map_towupper_getLastD (cs : List Nat) :
    (cs.map towupper).getLastD 32 = towupper (cs.getLastD 32) :=
  map_towupper_getLastD_aux cs 32

lemma specSingleDigit_eq_cond (cs : List Nat) :
    specSingleDigit cs = (cs.length == 1 && isdigitChar (cs.headD 32)) := by
  cases cs with
  | nil => rfl
  | cons a t =>
    cases t with
    | nil => simp [specSingleDigit]
    | cons b u => simp [specSingleDigit]

lemma specPhysicalName_eq_cond (cs : List Nat) :
    specPhysicalName cs
      = (containsSub upperPhysicalDriveChars (cs.map towupper)
        && isdigitChar ((cs.map towupper).getLastD 32)) := by
  unfold specPhysicalName
  rw [map_towupper_getLastD, isdigit_towupper]

lemma specLetterInput_eq_cond (cs : List Nat) :
    specLetterInput cs
      = (((cs.map towupper).length == 1 && iswalphaChar ((cs.map towupper).headD 32))
        || ((cs.map towupper).length == 2
          && iswalphaChar ((cs.map towupper).headD 32)
          && ((cs.map towupper).getLastD 32 == colonChar))) := by
  cases cs with
  | nil => rfl
  | cons a t =>
    cases t with
    | nil => simp [specLetterInput, iswalpha_towupper]
    | cons b u =>
      cases u with
      | nil =>
        simp [specLetterInput, iswalpha_towupper, towupper_beq_colon]
      | cons c v =>
        simp [specLetterInput]

/-- C1 (amended): `determineDriveType` realises exactly the three-shape
classification `specClassify` — a single digit or a
`PHYSICALDRIVE`-containing, digit-terminated string become the
canonical `\\.\PhysicalDrive<n>` path, a single letter or `letter:`
becomes the canonical `\\.\<LETTER>:` path — with the canonical paths
of `specNormalizePath`, and initialising the sector reader throws
exactly on the remaining inputs (before any I/O). -/
theorem claim_C1 (cs : List Nat) :
    (determineDriveType cs).fst = specClassify cs
      ∧ (determineDriveType cs).snd = specNormalizePath cs
      ∧ initSectorReader (determineDriveType cs).fst
        = (if specClassify cs = DriveType.UNKNOWN_DRIVE
            then Except.error DriveError.couldNotDetermineDriveType
            else Except.ok ()) := by
  unfold determineDriveType specClassify specNormalizePath
  rw [← specSingleDigit_eq_cond, ← specPhysicalName_eq_cond, ← specLetterInput_eq_cond]
  by_cases h1 : specSingleDigit cs = true
  · simp [h1, initSectorReader]
  · by_cases h2 : specPhysicalName cs = true
    · have hd : isdigitChar (cs.getLastD 32) = true := by
        have h := h2
        unfold specPhysicalName at h
        simp only [Bool.and_eq_true] at h
        exact h.2
      have hfix : (cs.map towupper).getLastD 32 = cs.getLastD 32 := by
        rw [map_towupper_getLastD, towupper_eq_of_digit hd]
      have hfix2 : (Option.map towupper cs.getLast?).getD 32 = cs.getLast?.getD 32 := by
        simpa using hfix
      simp [h1, h2, hfix, hfix2, initSectorReader]
    · by_cases h3 : specLetterInput cs = true
      · cases cs with
        | nil => simp [specLetterInput] at h3
        | cons a t =>
          cases t with
          | nil =>
            simp [h1, h2, h3, initSectorReader]
          | cons b u =>
            cases u with
            | nil =>
              have hb : b = colonChar := by
                unfold specLetterInput at h3
                simp only [Bool.and_eq_true, beq_iff_eq] at h3
                exact h3.2
              have hcol : towupper b = colonChar := by rw [hb]; rfl
              simp [h1, h2, h3, hcol, initSectorReader]
            | cons c v =>
              simp [specLetterInput] at h3
      · simp [h1, h2, h3, initSectorReader]

/-- The fourteen characters of `PhysicalDrive0`. -/
def cexPhysName : List Nat :=
  [80, 104, 121, 115, 105, 99, 97, 108, 68, 114, 105, 118, 101, 48]

/-- The two characters of `10`. -/
def cexBareNum : List Nat := [49, 48]

/-- Counterexample to C1 as stated: the input `PhysicalDrive0` matches
neither claimed shape (it is neither a bare number nor a letter
pattern) yet classification succeeds as a physical drive and no error
is thrown; conversely the bare number `10` is classified
`UNKNOWN_DRIVE` and the sector-reader initialisation throws. -/
theorem claim_C1_counterexample :
    specBareNumber cexPhysName = false
      ∧ specLetterInput cexPhysName = false
      ∧ (determineDriveType cexPhysName).fst = DriveType.PHYSICAL_DRIVE
      ∧ initSectorReader (determineDriveType cexPhysName).fst = Except.ok ()
      ∧ specBareNumber cexBareNum = true
      ∧ initSectorReader (determineDriveType cexBareNum).fst
        = Except.error DriveError.couldNotDetermineDriveType :=
  ⟨rfl, rfl, rfl, rfl, rfl, rfl⟩

/-! ### Claims C4 and C10: the GPT extraction loop -/

lemma collectBatch_eq (buf : Nat → Byte) (soe i N : Nat) :
    ∀ k j : Nat, i + j + k ≤ 2 ^ 32 →
      collectBatch buf soe i N k j
        = ((List.range' j (min k (N - (i + j)))).map
            (fun jj => entryFromBuffer buf jj soe)).filter (fun e => !isEmptyGUID e) := by
  intro k
  induction k with
  | zero =>
    intro j hj
    simp [collectBatch]
  | succ k ih =>
    intro j hj
    have hmod : (i + j) % 2 ^ 32 = i + j := Nat.mod_eq_of_lt (by omega)
    by_cases hlt : i + j < N
    · have hmin : min (k + 1) (N - (i + j)) = min k (N - (i + j + 1)) + 1 := by omega
      rw [collectBatch, hmod, if_pos hlt, ih (j + 1) (by omega), hmin, List.range'_succ]
      by_cases hg : isEmptyGUID (entryFromBuffer buf j soe)
      · simp [hg, Nat.add_assoc]
      · simp [hg, Nat.add_assoc]
    · have h0 : min (k + 1) (N - (i + j)) = 0 := by omega
      rw [collectBatch, hmod, if_neg hlt, h0]
      simp

lemma gptLoop_spec (g : GPTHeader) (bps : Nat) (byteAt : Nat → Byte)
    (hsoe : 0 < g.SizeOfEntry) (hdvd : g.SizeOfEntry ∣ bps) (hbps : 0 < bps)
    (hwrap : g.NumberOfEntries + bps / g.SizeOfEntry ≤ 2 ^ 32)
    (hmul : g.NumberOfEntries * g.SizeOfEntry ≤ 2 ^ 32)
    (hlba : g.PartitionEntryLBA + g.NumberOfEntries < 2 ^ 64) :
    ∀ fuel i, (bps / g.SizeOfEntry) ∣ i →
      (g.NumberOfEntries - i + bps / g.SizeOfEntry - 1) / (bps / g.SizeOfEntry) + 1 ≤ fuel →
      gptLoop g bps byteAt fuel i
        = some
          (((List.range' i (g.NumberOfEntries - i)).map
              (entryBytesAbs g.PartitionEntryLBA bps g.SizeOfEntry byteAt)).filter
            (fun e => !isEmptyGUID e),
            (g.NumberOfEntries - i + bps / g.SizeOfEntry - 1) / (bps / g.SizeOfEntry)) := by
  have heps : 0 < bps / g.SizeOfEntry := Nat.div_pos (Nat.le_of_dvd hbps hdvd) hsoe
  have hepsmul : g.SizeOfEntry * (bps / g.SizeOfEntry) = bps := Nat.mul_div_cancel' hdvd
  intro fuel
  induction fuel with
  | zero =>
    intro i _ hfuel
    exact (Nat.not_succ_le_zero _ hfuel).elim
  | succ fuel ih =>
    intro i hdvdi hfuel
    by_cases hiN : i < g.NumberOfEntries
    · -- one more batch
      obtain ⟨k, hk⟩ := hdvdi
      have hkbps : k * bps = i * g.SizeOfEntry := by
        rw [hk]
        calc k * bps = k * (g.SizeOfEntry * (bps / g.SizeOfEntry)) := by rw [hepsmul]
        _ = bps / g.SizeOfEntry * k * g.SizeOfEntry := by ring
      have hieps : i + bps / g.SizeOfEntry < 2 ^ 32 := by omega
      have hstep : (i + bps / g.SizeOfEntry) % 2 ^ 32 = i + bps / g.SizeOfEntry :=
        Nat.mod_eq_of_lt hieps
      have hisoe : i * g.SizeOfEntry < 2 ^ 32 := by
        have h1 : i * g.SizeOfEntry ≤ (g.NumberOfEntries - 1) * g.SizeOfEntry :=
          Nat.mul_le_mul_right _ (by omega)
        have h2 : (g.NumberOfEntries - 1) * g.SizeOfEntry
            = g.NumberOfEntries * g.SizeOfEntry - g.SizeOfEntry := by
          rw [Nat.sub_mul, one_mul]
        omega
      have hdivk : i * g.SizeOfEntry / bps = k := by
        rw [← hkbps]
        exact Nat.mul_div_cancel k hbps
      have hkle : k ≤ i := by
        calc k = 1 * k := (one_mul k).symm
        _ ≤ bps / g.SizeOfEntry * k := Nat.mul_le_mul_right k heps
        _ = i := hk.symm
      have hlba64 :
          (g.PartitionEntryLBA + (i * g.SizeOfEntry) % 2 ^ 32 / bps) % 2 ^ 64
            = g.PartitionEntryLBA + k := by
        rw [Nat.mod_eq_of_lt hisoe, hdivk]
        exact Nat.mod_eq_of_lt (by omega)
      have hfuelih :
          (g.NumberOfEntries - (i + bps / g.SizeOfEntry) + bps / g.SizeOfEntry - 1)
              / (bps / g.SizeOfEntry) + 1 ≤ fuel := by
        rcases le_or_lt (i + bps / g.SizeOfEntry) g.NumberOfEntries with hle | hgt
        · have hnum : g.NumberOfEntries - i + bps / g.SizeOfEntry - 1
              = (g.NumberOfEntries - (i + bps / g.SizeOfEntry) + bps / g.SizeOfEntry - 1)
                + bps / g.SizeOfEntry := by omega
          rw [hnum, Nat.add_div_right _ heps] at hfuel
          omega
        · have h0 : g.NumberOfEntries - (i + bps / g.SizeOfEntry) = 0 := by omega
          have hz : (bps / g.SizeOfEntry - 1) / (bps / g.SizeOfEntry) = 0 :=
            Nat.div_eq_of_lt (by omega)
          have hone : 1 ≤ (g.NumberOfEntries - i + bps / g.SizeOfEntry - 1)
              / (bps / g.SizeOfEntry) :=
            (Nat.one_le_div_iff heps).mpr (by omega)
          rw [h0]
          simp only [Nat.zero_add]
          rw [hz]
          omega
      have hcount :
          (g.NumberOfEntries - (i + bps / g.SizeOfEntry) + bps / g.SizeOfEntry - 1)
              / (bps / g.SizeOfEntry) + 1
            = (g.NumberOfEntries - i + bps / g.SizeOfEntry - 1) / (bps / g.SizeOfEntry) := by
        rcases le_or_lt (i + bps / g.SizeOfEntry) g.NumberOfEntries with hle | hgt
        · have hnum : g.NumberOfEntries - i + bps / g.SizeOfEntry - 1
              = (g.NumberOfEntries - (i + bps / g.SizeOfEntry) + bps / g.SizeOfEntry - 1)
                + bps / g.SizeOfEntry := by omega
          rw [hnum, Nat.add_div_right _ heps]
        · have h0 : g.NumberOfEntries - (i + bps / g.SizeOfEntry) = 0 := by omega
          have hz : (bps / g.SizeOfEntry - 1) / (bps / g.SizeOfEntry) = 0 :=
            Nat.div_eq_of_lt (by omega)
          have hub : (g.NumberOfEntries - i + bps / g.SizeOfEntry - 1) / (bps / g.SizeOfEntry)
              < 2 :=
            (Nat.div_lt_iff_lt_mul heps).mpr (by omega)
          have hone : 1 ≤ (g.NumberOfEntries - i + bps / g.SizeOfEntry - 1)
              / (bps / g.SizeOfEntry) :=
            (Nat.one_le_div_iff heps).mpr (by omega)
          rw [h0]
          simp only [Nat.zero_add]
          rw [hz]
          omega
      rw [gptLoop, if_pos hiN, hstep,
        ih (i + bps / g.SizeOfEntry) ⟨k + 1, by rw [hk]; ring⟩ hfuelih,
        Option.map_some']
      refine congrArg some (Prod.ext ?_ hcount)
      -- entries of this batch plus the rest
      show collectBatch _ g.SizeOfEntry i g.NumberOfEntries (bps / g.SizeOfEntry) 0 ++ _ = _
      rw [hlba64,
        collectBatch_eq _ g.SizeOfEntry i g.NumberOfEntries (bps / g.SizeOfEntry) 0 (by omega)]
      have hentry : ∀ jj : Nat,
          entryFromBuffer (fun t => byteAt ((g.PartitionEntryLBA + k) * bps + t)) jj
              g.SizeOfEntry
            = entryBytesAbs g.PartitionEntryLBA bps g.SizeOfEntry byteAt (i + jj) := by
        intro jj
        unfold entryFromBuffer entryBytesAbs
        refine List.map_congr_left (fun t _ => ?_)
        rw [Nat.add_mul g.PartitionEntryLBA k bps, hkbps, Nat.add_mul i jj g.SizeOfEntry]
        ring_nf
      have hshift :
          (List.range' 0 (min (bps / g.SizeOfEntry) (g.NumberOfEntries - (i + 0)))).map
              (fun jj => entryFromBuffer
                (fun t => byteAt ((g.PartitionEntryLBA + k) * bps + t)) jj g.SizeOfEntry)
            = (List.range' i (min (bps / g.SizeOfEntry) (g.NumberOfEntries - i))).map
              (entryBytesAbs g.PartitionEntryLBA bps g.SizeOfEntry byteAt) := by
        rw [List.range'_eq_map_range, List.range'_eq_map_range, List.map_map, List.map_map]
        refine List.map_congr_left (fun x _ => ?_)
        simp only [Function.comp_apply, Nat.zero_add, Nat.add_zero]
        exact hentry x
      rw [hshift]
      rcases le_or_lt (i + bps / g.SizeOfEntry) g.NumberOfEntries with hle | hgt
      · have hmin : min (bps / g.SizeOfEntry) (g.NumberOfEntries - i) = bps / g.SizeOfEntry := by
          omega
        have happ := List.range'_append i (bps / g.SizeOfEntry)
          (g.NumberOfEntries - (i + bps / g.SizeOfEntry)) 1
        rw [one_mul] at happ
        have hlen : g.NumberOfEntries - i
            = g.NumberOfEntries - (i + bps / g.SizeOfEntry) + bps / g.SizeOfEntry := by
          omega
        rw [hmin, hlen, ← happ, List.map_append, List.filter_append]
      · have hmin : min (bps / g.SizeOfEntry) (g.NumberOfEntries - i)
            = g.NumberOfEntries - i := by omega
        have h0 : g.NumberOfEntries - (i + bps / g.SizeOfEntry) = 0 := by omega
        rw [hmin, h0]
        simp
    · -- the loop condition fails: no further reads
      have h0 : g.NumberOfEntries - i = 0 := by omega
      have hz : (bps / g.SizeOfEntry - 1) / (bps / g.SizeOfEntry) = 0 :=
        Nat.div_eq_of_lt (by omega)
      rw [gptLoop, if_neg hiN, h0]
      simp only [Nat.zero_add]
      rw [hz]
      simp

lemma gptLoop_reads (g : GPTHeader) (bps : Nat) (byteAt : Nat → Byte)
    (heps : 0 < bps / g.SizeOfEntry)
    (hwrap : g.NumberOfEntries + bps / g.SizeOfEntry ≤ 2 ^ 32) :
    ∀ fuel i,
      (g.NumberOfEntries - i + bps / g.SizeOfEntry - 1) / (bps / g.SizeOfEntry) + 1 ≤ fuel →
      ∃ es, gptLoop g bps byteAt fuel i
        = some (es, (g.NumberOfEntries - i + bps / g.SizeOfEntry - 1) / (bps / g.SizeOfEntry)) := by
  intro fuel
  induction fuel with
  | zero =>
    intro i hfuel
    exact (Nat.not_succ_le_zero _ hfuel).elim
  | succ fuel ih =>
    intro i hfuel
    by_cases hiN : i < g.NumberOfEntries
    · have hieps : i + bps / g.SizeOfEntry < 2 ^ 32 := by omega
      have hstep : (i + bps / g.SizeOfEntry) % 2 ^ 32 = i + bps / g.SizeOfEntry :=
        Nat.mod_eq_of_lt hieps
      have hfuelih :
          (g.NumberOfEntries - (i + bps / g.SizeOfEntry) + bps / g.SizeOfEntry - 1)
              / (bps / g.SizeOfEntry) + 1 ≤ fuel := by
        rcases le_or_lt (i + bps / g.SizeOfEntry) g.NumberOfEntries with hle | hgt
        · have hnum : g.NumberOfEntries - i + bps / g.SizeOfEntry - 1
              = (g.NumberOfEntries - (i + bps / g.SizeOfEntry) + bps / g.SizeOfEntry - 1)
                + bps / g.SizeOfEntry := by omega
          rw [hnum, Nat.add_div_right _ heps] at hfuel
          omega
        · have h0 : g.NumberOfEntries - (i + bps / g.SizeOfEntry) = 0 := by omega
          have hz : (bps / g.SizeOfEntry - 1) / (bps / g.SizeOfEntry) = 0 :=
            Nat.div_eq_of_lt (by omega)
          have hone : 1 ≤ (g.NumberOfEntries - i + bps / g.SizeOfEntry - 1)
              / (bps / g.SizeOfEntry) :=
            (Nat.one_le_div_iff heps).mpr (by omega)
          rw [h0]
          simp only [Nat.zero_add]
          rw [hz]
          omega
      have hcount :
          (g.NumberOfEntries - (i + bps / g.SizeOfEntry) + bps / g.SizeOfEntry - 1)
              / (bps / g.SizeOfEntry) + 1
            = (g.NumberOfEntries - i + bps / g.SizeOfEntry - 1) / (bps / g.SizeOfEntry) := by
        rcases le_or_lt (i + bps / g.SizeOfEntry) g.NumberOfEntries with hle | hgt
        · have hnum : g.NumberOfEntries - i + bps / g.SizeOfEntry - 1
              = (g.NumberOfEntries - (i + bps / g.SizeOfEntry) + bps / g.SizeOfEntry - 1)
                + bps / g.SizeOfEntry := by omega
          rw [hnum, Nat.add_div_right _ heps]
        · have h0 : g.NumberOfEntries - (i + bps / g.SizeOfEntry) = 0 := by omega
          have hz : (bps / g.SizeOfEntry - 1) / (bps / g.SizeOfEntry) = 0 :=
            Nat.div_eq_of_lt (by omega)
          have hub : (g.NumberOfEntries - i + bps / g.SizeOfEntry - 1) / (bps / g.SizeOfEntry)
              < 2 :=
            (Nat.div_lt_iff_lt_mul heps).mpr (by omega)
          have hone : 1 ≤ (g.NumberOfEntries - i + bps / g.SizeOfEntry - 1)
              / (bps / g.SizeOfEntry) :=
            (Nat.one_le_div_iff heps).mpr (by omega)
          rw [h0]
          simp only [Nat.zero_add]
          rw [hz]
          omega
      obtain ⟨es, hes⟩ := ih (i + bps / g.SizeOfEntry) hfuelih
      refine ⟨collectBatch
          (fun t => byteAt
            (((g.PartitionEntryLBA + ((i * g.SizeOfEntry) % 2 ^ 32) / bps) % 2 ^ 64)
                * bps + t))
          g.SizeOfEntry i g.NumberOfEntries (bps / g.SizeOfEntry) 0 ++ es, ?_⟩
      rw [gptLoop, if_pos hiN, hstep, hes, Option.map_some']
      exact congrArg some (Prod.ext rfl hcount)
    · have h0 : g.NumberOfEntries - i = 0 := by omega
      have hz : (bps / g.SizeOfEntry - 1) / (bps / g.SizeOfEntry) = 0 :=
        Nat.div_eq_of_lt (by omega)
      refine ⟨[], ?_⟩
      rw [gptLoop, if_neg hiN, h0]
      simp only [Nat.zero_add]
      rw [hz]

/-- C4 (amended): provided `SizeOfEntry` is at least 16 (the type GUID
size) and divides a positive `bytesPerSector`, and the GPT fields are
small enough that the 32-bit index arithmetic cannot wrap
(`NumberOfEntries + entriesPerSector ≤ 2^32`,
`NumberOfEntries * SizeOfEntry ≤ 2^32`) and the 64-bit LBA cannot
wrap, `getGPTPartitions` returns exactly the entries whose 16-byte
type GUID is not all-zero, in slot order, using exactly
`ceil(NumberOfEntries / entriesPerSector)` whole-sector reads. -/
theorem claim_C4 (g : GPTHeader) (bps : Nat) (byteAt : Nat → Byte)
    (h16 : 16 ≤ g.SizeOfEntry) (hdvd : g.SizeOfEntry ∣ bps) (hbps : 0 < bps)
    (hwrap : g.NumberOfEntries + bps / g.SizeOfEntry ≤ 2 ^ 32)
    (hmul : g.NumberOfEntries * g.SizeOfEntry ≤ 2 ^ 32)
    (hlba : g.PartitionEntryLBA + g.NumberOfEntries < 2 ^ 64) :
    getGPTPartitions g bps byteAt
      = some (gptEntriesSpec g bps byteAt,
          (g.NumberOfEntries + bps / g.SizeOfEntry - 1) / (bps / g.SizeOfEntry)) := by
  have hsoe : 0 < g.SizeOfEntry := by omega
  have heps : 0 < bps / g.SizeOfEntry := Nat.div_pos (Nat.le_of_dvd hbps hdvd) hsoe
  have hfuel : (g.NumberOfEntries - 0 + bps / g.SizeOfEntry - 1) / (bps / g.SizeOfEntry) + 1
      ≤ g.NumberOfEntries + 1 := by
    have hNe : g.NumberOfEntries ≤ g.NumberOfEntries * (bps / g.SizeOfEntry) :=
      Nat.le_mul_of_pos_right _ heps
    have hlt : g.NumberOfEntries - 0 + bps / g.SizeOfEntry - 1
        < (g.NumberOfEntries + 1) * (bps / g.SizeOfEntry) := by
      rw [Nat.succ_mul]
      omega
    have := (Nat.div_lt_iff_lt_mul heps).mpr hlt
    omega
  have h := gptLoop_spec g bps byteAt hsoe hdvd hbps hwrap hmul hlba
    (g.NumberOfEntries + 1) 0 (dvd_zero _) hfuel
  rw [Nat.sub_zero] at h
  unfold getGPTPartitions gptEntriesSpec
  rw [List.range_eq_range']
  exact h

/-- A small concrete GPT header (3 slots of 16 bytes, entry array at
LBA 1) used for the C4/C10 witnesses. -/
def witnessGPT : GPTHeader where
  Signature := fun _ => 0
  Revision := 0
  HeaderSize := 0
  HeaderCRC32 := 0
  CurrentLBA := 0
  BackupLBA := 0
  FirstUsableLBA := 0
  LastUsableLBA := 0
  DiskGUID := fun _ => 0
  PartitionEntryLBA := 1
  NumberOfEntries := 3
  SizeOfEntry := 16
  PartitionEntryArrayCRC32 := 0

/-- Device bytes for the C4 witness: only entry slot 0 (at byte 32,
with 32 bytes per sector) has a nonzero type GUID. -/
def witnessByteAt : Nat → Byte :=
  fun a => if a = 32 then 1 else 0

/-- Witness for C4 at a concrete header and disk: 3 slots, 16-byte
entries, 32-byte sectors — two whole-sector reads. -/
theorem claim_C4_witness :
    (16 ≤ witnessGPT.SizeOfEntry ∧ witnessGPT.SizeOfEntry ∣ 32 ∧ 0 < (32 : Nat)
      ∧ witnessGPT.NumberOfEntries + 32 / witnessGPT.SizeOfEntry ≤ 2 ^ 32
      ∧ witnessGPT.NumberOfEntries * witnessGPT.SizeOfEntry ≤ 2 ^ 32
      ∧ witnessGPT.PartitionEntryLBA + witnessGPT.NumberOfEntries < 2 ^ 64)
      ∧ getGPTPartitions witnessGPT 32 witnessByteAt
        = some (gptEntriesSpec witnessGPT 32 witnessByteAt, 2) :=
  ⟨⟨by decide, ⟨2, rfl⟩, by decide, by decide, by decide, by decide⟩,
    claim_C4 witnessGPT 32 witnessByteAt (by decide) ⟨2, rfl⟩ (by decide) (by decide)
      (by decide) (by decide)⟩

/-- C10 (amended): for every GPT header whose `SizeOfEntry` is nonzero
and at most `bytesPerSector`, and whose `NumberOfEntries +
entriesPerSector` is at most `2^32` (so the 32-bit loop index cannot
wrap), the extraction loop terminates after exactly
`ceil(NumberOfEntries / entriesPerSector)` sector reads. -/
theorem claim_C10 (g : GPTHeader) (bps : Nat) (byteAt : Nat → Byte)
    (hsoe : g.SizeOfEntry ≠ 0) (hle : g.SizeOfEntry ≤ bps)
    (hwrap : g.NumberOfEntries + bps / g.SizeOfEntry ≤ 2 ^ 32) :
    ∃ es, getGPTPartitions g bps byteAt
      = some (es, (g.NumberOfEntries + bps / g.SizeOfEntry - 1) / (bps / g.SizeOfEntry)) := by
  have heps : 0 < bps / g.SizeOfEntry := Nat.div_pos hle (Nat.pos_of_ne_zero hsoe)
  have hfuel : (g.NumberOfEntries - 0 + bps / g.SizeOfEntry - 1) / (bps / g.SizeOfEntry) + 1
      ≤ g.NumberOfEntries + 1 := by
    have hNe : g.NumberOfEntries ≤ g.NumberOfEntries * (bps / g.SizeOfEntry) :=
      Nat.le_mul_of_pos_right _ heps
    have hlt : g.NumberOfEntries - 0 + bps / g.SizeOfEntry - 1
        < (g.NumberOfEntries + 1) * (bps / g.SizeOfEntry) := by
      rw [Nat.succ_mul]
      omega
    have := (Nat.div_lt_iff_lt_mul heps).mpr hlt
    omega
  obtain ⟨es, hes⟩ := gptLoop_reads g bps byteAt heps hwrap (g.NumberOfEntries + 1) 0 hfuel
  rw [Nat.sub_zero] at hes
  exact ⟨es, hes⟩

/-- Witness for C10 at a concrete header: 3 slots, 16-byte entries,
48-byte sectors — one read. -/
theorem claim_C10_witness :
    (witnessGPT.SizeOfEntry ≠ 0 ∧ witnessGPT.SizeOfEntry ≤ 48
      ∧ witnessGPT.NumberOfEntries + 48 / witnessGPT.SizeOfEntry ≤ 2 ^ 32)
      ∧ ∃ es, getGPTPartitions witnessGPT 48 witnessByteAt
        = some (es, (witnessGPT.NumberOfEntries + 48 / witnessGPT.SizeOfEntry - 1)
            / (48 / witnessGPT.SizeOfEntry)) :=
  ⟨⟨by decide, by decide, by decide⟩,
    claim_C10 witnessGPT 48 witnessByteAt (by decide) (by decide) (by decide)⟩

/-- A GPT header on which the 32-bit loop index wraps: `SizeOfEntry`
is 1 and the device sector size will be taken as `2^31` bytes, so
`entriesPerSector = 2^31` and the index cycles through `0, 2^31, 0,
...`, never reaching `NumberOfEntries > 2^31`. -/
def cexGPTHeader (N : Nat) : GPTHeader where
  Signature := fun _ => 0
  Revision := 0
  HeaderSize := 0
  HeaderCRC32 := 0
  CurrentLBA := 0
  BackupLBA := 0
  FirstUsableLBA := 0
  LastUsableLBA := 0
  DiskGUID := fun _ => 0
  PartitionEntryLBA := 2
  NumberOfEntries := N
  SizeOfEntry := 1
  PartitionEntryArrayCRC32 := 0

lemma gptLoop_wrap_none (N : Nat) (hN : 2 ^ 31 < N) (byteAt : Nat → Byte) :
    ∀ fuel i, i = 0 ∨ i = 2 ^ 31 →
      gptLoop (cexGPTHeader N) (2 ^ 31) byteAt fuel i = none := by
  intro fuel
  induction fuel with
  | zero => intro i _; rfl
  | succ fuel ih =>
    intro i hi
    have hlt : i < (cexGPTHeader N).NumberOfEntries := by
      show i < N
      rcases hi with h | h <;> omega
    have hnext : (i + 2 ^ 31 / (cexGPTHeader N).SizeOfEntry) % 2 ^ 32 = 0
        ∨ (i + 2 ^ 31 / (cexGPTHeader N).SizeOfEntry) % 2 ^ 32 = 2 ^ 31 := by
      show (i + 2 ^ 31 / 1) % 2 ^ 32 = 0 ∨ (i + 2 ^ 31 / 1) % 2 ^ 32 = 2 ^ 31
      rw [Nat.div_one]
      rcases hi with h | h
      · right
        rw [h, Nat.zero_add]
        exact Nat.mod_eq_of_lt (by norm_num)
      · left
        rw [h]
        norm_num
    rw [gptLoop, if_pos hlt,
      ih ((i + 2 ^ 31 / (cexGPTHeader N).SizeOfEntry) % 2 ^ 32) hnext]
    rfl

/-- The wrapping header with `2^31 + 1` declared entries. -/
def cexG4 : GPTHeader := cexGPTHeader (2 ^ 31 + 1)

/-- The wrapping header with `2^31 + 2` declared entries. -/
def cexG10 : GPTHeader := cexGPTHeader (2 ^ 31 + 2)

/-- Counterexample to C4 as stated: a GPT entry array satisfying the
claim's hypotheses (`SizeOfEntry` positive and dividing
`bytesPerSector`) on which the extraction loop never returns at all —
the 32-bit index wraps and cycles — so it does not return the K
non-empty entries. -/
theorem claim_C4_counterexample :
    0 < cexG4.SizeOfEntry ∧ cexG4.SizeOfEntry ∣ 2 ^ 31 ∧ cexG4.SizeOfEntry ≤ 2 ^ 31
      ∧ ¬ gptLoopTerminates cexG4 (2 ^ 31) (fun _ => 0) := by
  refine ⟨Nat.one_pos, one_dvd _, by decide, ?_⟩
  rintro ⟨fuel, r, hr⟩
  have hr2 : gptLoop (cexGPTHeader (2 ^ 31 + 1)) (2 ^ 31) (fun _ => 0) fuel 0 = some r := hr
  rw [gptLoop_wrap_none (2 ^ 31 + 1) (by norm_num) _ fuel 0 (Or.inl rfl)] at hr2
  exact Option.noConfusion hr2

/-- Counterexample to C10 as stated: a GPT header whose `SizeOfEntry`
is nonzero and at most `bytesPerSector`, yet the loop does not
terminate — the claimed hypotheses do not suffice because the 32-bit
index can wrap. -/
theorem claim_C10_counterexample :
    cexG10.SizeOfEntry ≠ 0 ∧ cexG10.SizeOfEntry ≤ 2 ^ 31
      ∧ ¬ gptLoopTerminates cexG10 (2 ^ 31) (fun _ => 0) := by
  refine ⟨by decide, by decide, ?_⟩
  rintro ⟨fuel, r, hr⟩
  have hr2 : gptLoop (cexGPTHeader (2 ^ 31 + 2)) (2 ^ 31) (fun _ => 0) fuel 0 = some r := hr
  rw [gptLoop_wrap_none (2 ^ 31 + 2) (by norm_num) _ fuel 0 (Or.inl rfl)] at hr2
  exact Option.noConfusion hr2
